import Mathlib

/-!
Shallow embedding of `HNScraperTest.py` (HackerNews scraper):
the field parsers `parse_age` and `parse_comments`, the record extractor
`parse_html` over a document-tree model of the BeautifulSoup operations the
source uses, and the bounded-retry fetch loop `connect_to_base` /
`run_process` / the main page loop.

Python numbers are modelled with `Int` (Python `int`) and `Rat`
(Python `float`; the source only multiplies by 24, divides by 60 and
converts decimal literals, which we model with exact rationals).
Python exceptions are modelled with `Except PyErr`.
-/

set_option autoImplicit false

namespace HNScraper

/-- A Python runtime value as it flows through the scraper: an `int`, a
`float`, or a `str` (the `"NA"` sentinel and raw field texts). -/
inductive PyVal where
  | int : ℤ → PyVal
  | float : ℚ → PyVal
  | str : String → PyVal
  deriving DecidableEq, Repr

/-- The Python exception classes that the scraper's code paths can raise. -/
inductive PyErr where
  | indexError
  | typeError
  | valueError
  | attributeError
  deriving DecidableEq, Repr

/-! ### Numeric string conversion (`float(...)` / `int(...)`)

Models the Python builtins on the shapes that occur in this program:
an optional sign followed by decimal digits (for `float`, with an optional
fractional part).  Exponent forms, `inf`/`nan`, digit underscores and
surrounding whitespace never occur in the scraped tokens and are outside
the modelled domain (they convert to `none` here). -/

/-- One step of decimal accumulation: `acc * 10` plus the digit value. -/
def digitStep (a : ℕ) (c : Char) : ℕ := a * 10 + (c.toNat - 48)

/-- The numeric value of a list of decimal digit characters, left to
right. -/
def digitsVal (cs : List Char) : ℕ := cs.foldl digitStep 0

/-- Split a character list on a separator character (Python
`str.split(sep)` semantics: `n` separators yield `n + 1` groups). -/
def splitOnChar (sep : Char) : List Char → List (List Char)
  | [] => [[]]
  | c :: cs =>
    if c = sep then [] :: splitOnChar sep cs
    else
      match splitOnChar sep cs with
      | [] => [[c]]
      | g :: gs => (c :: g) :: gs

/-- Python `str.split(sep)` for a single-character separator (both call
sites split on one character: `' '` and `'\xa0'`). -/
def pySplitChar (sep : Char) (s : String) : List String :=
  (splitOnChar sep s.data).map (fun g => ⟨g⟩)

/-- Strip an optional leading sign, returning the sign factor and the rest. -/
def stripSign (cs : List Char) : ℚ × List Char :=
  match cs with
  | [] => (1, [])
  | c :: cs' =>
    if c = '+' then (1, cs')
    else if c = '-' then (-1, cs')
    else (1, cs)

/-- `float(s)` on a character list: `[sign] digits [. digits]` with at least
one digit; anything else raises `ValueError`, modelled as `none`. -/
def pyFloatChars (cs : List Char) : Option ℚ :=
  let sr := stripSign cs
  match splitOnChar '.' sr.2 with
  | [ip] =>
    if ip ≠ [] ∧ ip.all Char.isDigit then some (sr.1 * digitsVal ip) else none
  | [ip, fp] =>
    if (ip ≠ [] ∨ fp ≠ []) ∧ ip.all Char.isDigit ∧ fp.all Char.isDigit then
      some (sr.1 * ((digitsVal ip : ℚ) + (digitsVal fp : ℚ) / 10 ^ fp.length))
    else none
  | _ => none

/-- Python `float(<str>)` (decimal-literal fragment, see above). -/
def pyFloat (s : String) : Option ℚ := pyFloatChars s.data

/-- `int(s)` on a character list: `[sign] digits`, else `ValueError`. -/
def pyIntChars (cs : List Char) : Option ℤ :=
  let sr := stripSign cs
  if sr.2 ≠ [] ∧ sr.2.all Char.isDigit then
    some ((if sr.1 = 1 then 1 else -1) * (digitsVal sr.2 : ℤ))
  else none

/-- Python `int(<str>)` (decimal-literal fragment). -/
def pyInt (s : String) : Option ℤ := pyIntChars s.data

/-- Python `float(x)` applied to a runtime value (the source also feeds the
`int` literal `0` to `parse_comments`). -/
def pyFloatVal : PyVal → Option ℚ
  | .int n => some (n : ℚ)
  | .float q => some q
  | .str s => pyFloat s

/-- Python `s * n` string repetition (`"NA" * 24`). -/
def strRepeat (s : String) (n : ℕ) : String := String.join (List.replicate n s)

/-! ### Field parsers -/

/-- `parse_age` (source lines 59–84).

```python
age_set = age.split(' ')
age_in_hours = 0                      # dead: reassigned on every path below
try:
    age_in_hours = float(age_set[0])
except ValueError:
    age_in_hours = "NA"
if (age_set[1] == "days"):            # IndexError if there is no second token
    age_in_hours *= 24                # str * int repeats the string
elif (age_set[1] == "minutes"):
    age_in_hours /= 60                # str / int raises TypeError
return age_in_hours
```
`age.split(' ')` is never empty, so `age_set[0]` always exists. -/
def parse_age (age : String) : Except PyErr PyVal :=
  let age_set := pySplitChar ' ' age
  let age_in_hours : PyVal :=
    match pyFloat (age_set.headD "") with
    | some q => .float q
    | none => .str "NA"
  match age_set.get? 1 with
  | none => .error .indexError
  | some u =>
    if u = "days" then
      match age_in_hours with
      | .float q => .ok (.float (q * 24))
      | .int n => .ok (.int (n * 24))
      | .str s => .ok (.str (strRepeat s 24))
    else if u = "minutes" then
      match age_in_hours with
      | .float q => .ok (.float (q / 60))
      | .int n => .ok (.float ((n : ℚ) / 60))
      | .str _ => .error .typeError
    else .ok age_in_hours

/-- `parse_comments` (source lines 87–98).

```python
if (comment == "discuss"):
    comments_count = 0        # dead store: the try below always reassigns
try:
    comments_count = float(comment)
except ValueError:
    comments_count = "NA"
return comments_count
```
The `try` body runs unconditionally, so the `"discuss"` branch's `0` is
always overwritten: `float("discuss")` raises `ValueError`, giving `"NA"`. -/
def parse_comments (comment : PyVal) : PyVal :=
  match pyFloatVal comment with
  | some q => .float q
  | none => .str "NA"

/-! ### Document model

A parsed page, modelling the slice of BeautifulSoup the source uses:
element nodes with a tag name, an attribute list and children, plus text
nodes.  `find_all` / `find` traverse the tree in document order
(depth-first pre-order); `Tag.string` follows single-child chains. -/

mutual
/-- One markup node: an element (tag, attributes, children) or a text
node.  Children are a `NodeList` (isomorphic to `List Node`) so that the
tree functions below are structurally recursive. -/
inductive Node where
  | elem : String → List (String × String) → NodeList → Node
  | text : String → Node
/-- A sequence of sibling nodes. -/
inductive NodeList where
  | nil : NodeList
  | cons : Node → NodeList → NodeList
end

/-- Build a `NodeList` from a list literal. -/
def nodeList : List Node → NodeList
  | [] => .nil
  | n :: ns => .cons n (nodeList ns)

/-- A parsed document: its top-level nodes. -/
abbrev Doc := List Node

mutual
/-- A node and all nodes below it, in document order (the node before its
children, children before later siblings) — BeautifulSoup's traversal
order for `find` / `find_all`. -/
def Node.descendants : Node → List Node
  | .text s => [.text s]
  | .elem t a cs => .elem t a cs :: NodeList.descendantsL cs
/-- The descendants of a sibling sequence, in document order. -/
def NodeList.descendantsL : NodeList → List Node
  | .nil => []
  | .cons n ns => Node.descendants n ++ NodeList.descendantsL ns
end

/-- All nodes of a document in document order. -/
def descendantsList : List Node → List Node
  | [] => []
  | n :: ns => n.descendants ++ descendantsList ns

/-- The value of an attribute on a node (`tag.get(key)` / `tag[key]`). -/
def Node.attr (n : Node) (key : String) : Option String :=
  match n with
  | .text _ => none
  | .elem _ attrs _ => (attrs.find? (fun kv => kv.1 == key)).map (fun kv => kv.2)

/-- Whether a node is an element with the given tag name. -/
def Node.isElem (n : Node) (t : String) : Bool :=
  match n with
  | .elem t' _ _ => t' == t
  | .text _ => false

/-- BeautifulSoup `class_=c` matching: the `class` attribute, split on
spaces, contains `c`. -/
def Node.hasClass (n : Node) (c : String) : Bool :=
  match n.attr "class" with
  | some s => (pySplitChar ' ' s).contains c
  | none => false

mutual
/-- `Tag.string`: a text node's text; an element's, following a
single-child chain; `None` for zero or several children. -/
def Node.string : Node → Option String
  | .text s => some s
  | .elem _ _ cs => NodeList.singleString cs
/-- The `.string` of a single-node sequence, `None` otherwise. -/
def NodeList.singleString : NodeList → Option String
  | .cons c .nil => Node.string c
  | _ => none
end

/-- `soup.find_all(t, class_=c)`: all matching elements in document order. -/
def findAllTagClass (doc : Doc) (t c : String) : List Node :=
  (descendantsList doc).filter (fun n => n.isElem t && n.hasClass c)

/-- `soup.find(href=v)`: first node whose `href` attribute equals `v`. -/
def findByHref (doc : Doc) (v : String) : Option Node :=
  (descendantsList doc).find? (fun n => n.attr "href" == some v)

/-- `soup.find(id=v)`: first node whose `id` attribute equals `v`. -/
def findById (doc : Doc) (v : String) : Option Node :=
  (descendantsList doc).find? (fun n => n.attr "id" == some v)

/-- `tag.find(name)` (here `tag.span`): first element with that tag name
among the node's descendants (the node itself is not searched). -/
def Node.findTag (n : Node) (t : String) : Option Node :=
  match n with
  | .text _ => none
  | .elem _ _ cs => cs.descendantsL.find? (fun m => m.isElem t)

/-- `tag.find(class_=c)`: first descendant with the given class. -/
def Node.findClass (n : Node) (c : String) : Option Node :=
  match n with
  | .text _ => none
  | .elem _ _ cs => cs.descendantsL.find? (fun m => m.hasClass c)

/-- `tag.find_all(name)`: all descendants with the given tag name. -/
def Node.findAllTag (n : Node) (t : String) : List Node :=
  match n with
  | .text _ => []
  | .elem _ _ cs => cs.descendantsL.filter (fun m => m.isElem t)

/-! ### Record extractor (`parse_html`, source lines 101–150) -/

/-- One extracted record — the five-field dict built at source
lines 141–147. -/
structure Article where
  comments : PyVal
  rank : PyVal
  score : PyVal
  age : PyVal
  title_length : PyVal
  deriving DecidableEq, Repr

/-- Python f-string rendering of a value that may be `None`
(`f'item?id={article_id}'` renders a missing id as `"None"`). -/
def fstr (o : Option String) : String :=
  match o with
  | some s => s
  | none => "None"

/-- The non-breaking space character the source splits comment text on (`"\xa0"`). -/
def nbspChar : Char := '\u00A0'

/-- Source lines 131–134: `score = soup.find(id=f'score_{id}').string`
with `except Exception: score = '0 points'`.  A failed lookup raises
`AttributeError` inside the `try`, so it is caught and defaulted; a found
node's `.string` never raises though it may be `None`. -/
def scoreText (doc : Doc) (article_id : Option String) : Option String :=
  match findById doc ("score_" ++ fstr article_id) with
  | none => some "0 points"
  | some n => n.string

/-- Source lines 135–139: the raw comment text
`entry_td[x].find_all('a').pop().string.split("\xa0")[0]`, where
`except Exception: comments = 0` catches every failure in the chain
(index out of range, empty anchor list, `None.split`). -/
def commentsRaw (entry_td : List Node) (x : ℕ) : PyVal :=
  match entry_td.get? x with
  | none => .int 0
  | some td =>
    match (td.findAllTag "a").getLast? with
    | none => .int 0
    | some a =>
      match a.string with
      | none => .int 0
      | some s => .str ((pySplitChar nbspChar s).headD "")

/-- Source line 143: `float(entry_tr[x].span.string)`.  A missing span is
`None.string` → `AttributeError`; `float(None)` is a `TypeError`;
a non-numeric text a `ValueError`.  None are caught. -/
def rankField (tr : Node) : Except PyErr PyVal :=
  match tr.findTag "span" with
  | none => .error .attributeError
  | some sp =>
    match sp.string with
    | none => .error .typeError
    | some s =>
      match pyFloat s with
      | none => .error .valueError
      | some q => .ok (.float q)

/-- Source line 144: `int(score.split(" ")[0])`.  `score` is `None` when
the score node was found but had no usable `.string` (`None.split` →
`AttributeError`); `split` never yields an empty list. -/
def scoreField (score : Option String) : Except PyErr PyVal :=
  match score with
  | none => .error .attributeError
  | some s =>
    match pyInt ((pySplitChar ' ' s).headD "") with
    | none => .error .valueError
    | some n => .ok (.int n)

/-- Source line 145: `parse_age(article_age)`.  `article_age` is `None`
when the age link was found but had no `.string`; `None.split(' ')` inside
`parse_age` raises `AttributeError`. -/
def ageField (article_age : Option String) : Except PyErr PyVal :=
  match article_age with
  | none => .error .attributeError
  | some s => parse_age s

/-- Source line 146: `len(entry_tr[x].find(class_='storylink').string)`.
`find` returning `None` raises `AttributeError`; `len(None)` a
`TypeError`. -/
def titleField (tr : Node) : Except PyErr PyVal :=
  match tr.findClass "storylink" with
  | none => .error .attributeError
  | some t =>
    match t.string with
    | none => .error .typeError
    | some s => .ok (.int (s.length : ℤ))

/-- One iteration of the extraction loop (source lines 124–148) for item
index `x` with item row `tr = entry_tr[x]`.

The age-link lookup at line 128 is guarded only by `except IndexError`,
but `soup.find(...)` returning `None` makes `.string` raise
`AttributeError`, which that clause does not catch — so a failed lookup
propagates.  The record's fields are then evaluated in dict order:
comments (total, everything caught), rank, score, age, title length. -/
def extractItem (doc : Doc) (entry_td : List Node) (x : ℕ) (tr : Node) :
    Except PyErr Article :=
  let article_id := tr.attr "id"
  match findByHref doc ("item?id=" ++ fstr article_id) with
  | none => .error .attributeError
  | some ageLink =>
    let article_age := ageLink.string
    let score := scoreText doc article_id
    let commentsVal := parse_comments (commentsRaw entry_td x)
    match rankField tr with
    | .error e => .error e
    | .ok rankVal =>
      match scoreField score with
      | .error e => .error e
      | .ok scoreVal =>
        match ageField article_age with
        | .error e => .error e
        | .ok ageVal =>
          match titleField tr with
          | .error e => .error e
          | .ok titleLen =>
            .ok { comments := commentsVal, rank := rankVal, score := scoreVal,
                  age := ageVal, title_length := titleLen }

/-- The loop `for x in range(0, len(entry_tr))`, indexing both `entry_tr`
and (inside `commentsRaw`) `entry_td` by `x`; an uncaught exception in any
iteration propagates and discards the partially built output list. -/
def extractFrom (doc : Doc) (entry_td : List Node) :
    ℕ → List Node → Except PyErr (List Article)
  | _, [] => .ok []
  | x, tr :: rest =>
    match extractItem doc entry_td x tr with
    | .error e => .error e
    | .ok a =>
      match extractFrom doc entry_td (x + 1) rest with
      | .error e => .error e
      | .ok as => .ok (a :: as)

/-- `parse_html` (source lines 101–150): collect the item rows
(`tr.athing`) and metadata rows (`td.subtext`), then run the extraction
loop. -/
def parse_html (doc : Doc) : Except PyErr (List Article) :=
  let entry_tr := findAllTagClass doc "tr" "athing"
  let entry_td := findAllTagClass doc "td" "subtext"
  extractFrom doc entry_td 0 entry_tr

/-! ### Page fetcher and run loop (source lines 29–56, 162–171, 174–193)

The network is modelled as an oracle `outcome : ℕ → Bool` giving the
result of each connection attempt (`browser.get` + wait succeed or raise).
The pair returned by `connect_to_base` is the Python return value together
with the number of attempts actually made (for stating the retry bound). -/

/-- The `while connection_attempts < 3` loop of `connect_to_base`
(source lines 44–56), entered with the current failure count. -/
def connectFrom (outcome : ℕ → Bool) (connection_attempts : ℕ) : Bool × ℕ :=
  if connection_attempts < 3 then
    if outcome connection_attempts then (true, connection_attempts + 1)
    else connectFrom outcome (connection_attempts + 1)
  else (false, connection_attempts)
termination_by 3 - connection_attempts
decreasing_by omega

/-- `connect_to_base` (source lines 29–56): result and attempts made. -/
def connect_to_base (outcome : ℕ → Bool) : Bool × ℕ :=
  connectFrom outcome 0

/-- `run_process` (source lines 162–171): on a successful connection the
page source is parsed and its records written; on failure only an error
message is printed, so the page contributes no records.  An exception from
`parse_html` propagates (nothing catches it). -/
def run_process (outcome : ℕ → Bool) (doc : Doc) : Except PyErr (List Article) :=
  if (connect_to_base outcome).1 then parse_html doc else .ok []

/-- The `while page <= max_pages` loop of `__main__` (source lines
188–191): each page number is processed in turn and `page` incremented
regardless of fetch success; an uncaught exception aborts the run.
Returns, per page, the records written for it. -/
def main_loop (outcome : ℕ → ℕ → Bool) (docs : ℕ → Doc) (page max_pages : ℕ) :
    Except PyErr (List (ℕ × List Article)) :=
  if page ≤ max_pages then
    match run_process (outcome page) (docs page) with
    | .error e => .error e
    | .ok recs =>
      match main_loop outcome docs (page + 1) max_pages with
      | .error e => .error e
      | .ok rest => .ok ((page, recs) :: rest)
  else .ok []
termination_by max_pages + 1 - page
decreasing_by omega

/-! ### Well-formed page generator

`mkPage` builds a page document with the markup shape `parse_html` scrapes:
per item, a `tr.athing` row (id, rank marker span, `storylink` title
anchor) followed by a `tr` holding the `td.subtext` metadata row (score
span keyed `score_<id>`, the age link `item?id=<id>`, and the comments
link, last, also `item?id=<id>`).  Item identifiers and rank markers are
repunits (`"1"`, `"11"`, `"111"`, …) so that identifiers are pairwise
distinct and rank values strictly increase by construction. -/

/-- The number written with `n` ones: `0, 1, 11, 111, …`. -/
def repunit : ℕ → ℕ
  | 0 => 0
  | n + 1 => 10 * repunit n + 1

/-- The string of `n` ones, used as item identifier and rank digits. -/
def repId (n : ℕ) : String := ⟨List.replicate n '1'⟩

/-- The raw texts of one generated item: title, score text (e.g.
`"5 points"`), age text (e.g. `"3 hours"`), comment text (e.g.
`"12\xa0comments"` or `"discuss"`). -/
structure ItemSpec where
  title : String
  score : String
  age : String
  comment : String

/-- The rank marker span of the item ranked `p` (text `"<rank>."`). -/
def rankSpan (p : ℕ) : Node :=
  .elem "span" [("class", "rank")] (nodeList [.text (repId p ++ ".")])

/-- The item's title anchor (class `storylink`). -/
def storyAnchor (it : ItemSpec) : Node :=
  .elem "a" [("class", "storylink")] (nodeList [.text it.title])

/-- The `tr.athing` row of the item ranked `p`. -/
def mkAthing (p : ℕ) (it : ItemSpec) : Node :=
  .elem "tr" [("class", "athing"), ("id", repId p)] (nodeList
    [ .elem "td" [] (nodeList [rankSpan p]),
      .elem "td" [] (nodeList [storyAnchor it]) ])

/-- The item's score span, keyed by its identifier. -/
def scoreSpan (p : ℕ) (it : ItemSpec) : Node :=
  .elem "span" [("class", "score"), ("id", "score_" ++ repId p)]
    (nodeList [.text it.score])

/-- The item's age link. -/
def ageAnchor (p : ℕ) (it : ItemSpec) : Node :=
  .elem "a" [("href", "item?id=" ++ repId p)] (nodeList [.text it.age])

/-- The item's comments link (last anchor of its metadata row). -/
def commentAnchor (p : ℕ) (it : ItemSpec) : Node :=
  .elem "a" [("href", "item?id=" ++ repId p)] (nodeList [.text it.comment])

/-- The item's `td.subtext` metadata cell. -/
def mkSubtextTd (p : ℕ) (it : ItemSpec) : Node :=
  .elem "td" [("class", "subtext")]
    (nodeList [scoreSpan p it, ageAnchor p it, commentAnchor p it])

/-- The row wrapping the metadata cell. -/
def mkSubtextTr (p : ℕ) (it : ItemSpec) : Node :=
  .elem "tr" [] (nodeList [mkSubtextTd p it])

/-- The rows of the items starting at rank `p`. -/
def mkRows : ℕ → List ItemSpec → List Node
  | _, [] => []
  | p, it :: rest => mkAthing p it :: mkSubtextTr p it :: mkRows (p + 1) rest

/-- A generated page: one table holding the item rows, ranks from 1. -/
def mkPage (items : List ItemSpec) : Doc :=
  [ .elem "table" [] (nodeList (mkRows 1 items)) ]

/-- The `tr.athing` rows of the generated page, in document order. -/
def athings : ℕ → List ItemSpec → List Node
  | _, [] => []
  | p, it :: rest => mkAthing p it :: athings (p + 1) rest

/-- The `td.subtext` cells of the generated page, in document order. -/
def subtextTds : ℕ → List ItemSpec → List Node
  | _, [] => []
  | p, it :: rest => mkSubtextTd p it :: subtextTds (p + 1) rest

/-- The record `parse_html` builds for the item ranked `p`, when its score
and age texts convert (otherwise the `getD` defaults below are unused). -/
def expRecord (p : ℕ) (it : ItemSpec) : Article :=
  { comments := parse_comments (.str ((pySplitChar nbspChar it.comment).headD "")),
    rank := .float (repunit p),
    score := .int ((pyInt ((pySplitChar ' ' it.score).headD "")).getD 0),
    age := (parse_age it.age).toOption.getD (.str "NA"),
    title_length := .int (it.title.length : ℤ) }

/-! ### Concrete test documents -/

/-- A well-formed single item. -/
def itGood : ItemSpec :=
  { title := "Some title!", score := "5 points", age := "3 hours ago",
    comment := "12\u00A0comments" }

/-- A well-formed one-item page. -/
def onePage : Doc := mkPage [itGood]

/-- A page whose single item (id `"1"`) has no matching `item?id=1` link
anywhere: the age-link lookup fails structurally. -/
def pageNoAgeLink : Doc :=
  [ .elem "table" [] (nodeList
      [ mkAthing 1 { title := "Hello", score := "", age := "", comment := "" },
        .elem "tr" [] (nodeList
          [ .elem "td" [("class", "subtext")] (nodeList
              [ .elem "a" [("href", "other")] (nodeList [.text "discuss"]) ]) ]) ]) ]

/-- A second item row whose title anchor lacks the `storylink` class: its
required title lookup fails (fatal per the source). -/
def badAthing : Node :=
  .elem "tr" [("class", "athing"), ("id", repId 2)] (nodeList
    [ .elem "td" [] (nodeList
        [.elem "span" [("class", "rank")] (nodeList [.text (repId 2 ++ ".")])]),
      .elem "td" [] (nodeList
        [.elem "a" [] (nodeList [.text "No storylink class"])]) ])

/-- Metadata texts of the malformed second item. -/
def itBad : ItemSpec :=
  { title := "unused", score := "7 points", age := "2 days ago", comment := "discuss" }

/-- A two-item page: the first item well-formed, the second missing its
required title node. -/
def pageNoTitle : Doc :=
  [ .elem "table" [] (nodeList
      [ mkAthing 1 itGood, mkSubtextTr 1 itGood, badAthing, mkSubtextTr 2 itBad ]) ]

/-- An item whose age is `"4 minutes ago"` and that has no score span and
no metadata row at all. -/
def itNoScore : ItemSpec :=
  { title := "Job post", score := "", age := "4 minutes ago", comment := "" }

/-- A one-item page with the age link present but no score span and no
`td.subtext` row anywhere. -/
def pageNoScore : Doc :=
  [ .elem "table" [] (nodeList [ mkAthing 1 itNoScore, ageAnchor 1 itNoScore ]) ]

/-- Two well-formed items used to instantiate the page-level theorems. -/
def c4item0 : ItemSpec :=
  { title := "Hello", score := "5 points", age := "3 hours", comment := "discuss" }

/-- Second generated item: different title, score, age unit and comments. -/
def c4item1 : ItemSpec :=
  { title := "World!!", score := "10 points", age := "2 days", comment := "4\u00A0comments" }

/-- The two-item input list for the generated-page witness. -/
def c4items : List ItemSpec := [c4item0, c4item1]

/-! ## Theorems -/

/-- Decidable equality of modelled results, so concrete evaluations can be
settled by `decide`. -/
instance instDecEqExcept {ε α : Type} [DecidableEq ε] [DecidableEq α] :
    DecidableEq (Except ε α) := fun x y =>
  match x, y with
  | .ok a, .ok b =>
    if h : a = b then .isTrue (by rw [h]) else .isFalse (by intro hc; cases hc; exact h rfl)
  | .error a, .error b =>
    if h : a = b then .isTrue (by rw [h]) else .isFalse (by intro hc; cases hc; exact h rfl)
  | .ok _, .error _ => .isFalse (by intro hc; cases hc)
  | .error _, .ok _ => .isFalse (by intro hc; cases hc)

attribute [local semireducible] Rat.mul Rat.add Rat.inv Rat.sub

/-- **C1.** The claim says the comment-count parser maps the `"discuss"`
placeholder to `0`, numeric text to its value, and anything else to the
`"NA"` sentinel.  Evaluating the code: `"42"` and `"forty-two"` behave as
claimed, but `"discuss"` yields the sentinel, not `0` — the
`if comment == "discuss": comments_count = 0` branch is dead because the
following `try` unconditionally reassigns, and `float("discuss")` raises
`ValueError`. -/
theorem c1_parse_comments_discuss_eval :
    parse_comments (.str "discuss") = .str "NA"
      ∧ parse_comments (.str "42") = .float 42
      ∧ parse_comments (.str "forty-two") = .str "NA" := by
  decide

/-- **C2.** The claim says the age parser never raises, and yields the
sentinel for a non-numeric magnitude with any unit.  Evaluating the code:
a single-token input (such as the sentinel `"NA"` itself) raises
`IndexError` at `age_set[1]`; `"abc minutes"` raises `TypeError`
(`"NA" / 60`); `"abc days"` returns `"NA" * 24`, a 48-character string
that is neither a float nor the sentinel.  Only `"abc hours"` behaves as
claimed. -/
theorem c2_parse_age_failure_modes_eval :
    parse_age "NA" = .error .indexError
      ∧ parse_age "abc minutes" = .error .typeError
      ∧ parse_age "abc days" =
          .ok (.str "NANANANANANANANANANANANANANANANANANANANANANANANA")
      ∧ parse_age "abc hours" = .ok (.str "NA") := by
  decide

/-- **C3.** For every two-token input whose magnitude converts to a
number, the age parser normalizes to hours by unit: `"days"` multiplies
by 24, `"minutes"` divides by 60, any other unit leaves the magnitude
unchanged. -/
theorem c3_unit_normalization (age m u : String) (q : ℚ)
    (hsplit : pySplitChar ' ' age = [m, u]) (hm : pyFloat m = some q) :
    parse_age age =
      .ok (.float (if u = "days" then q * 24
                   else if u = "minutes" then q / 60 else q)) := by
  unfold parse_age
  rw [hsplit]
  simp only [List.headD_cons, List.get?]
  rw [hm]
  by_cases hd : u = "days"
  · simp [hd]
  · by_cases hmin : u = "minutes" <;> simp [hd, hmin]

/-- Witness for C3 at the spec's three examples. -/
theorem c3_unit_normalization_witness :
    parse_age "3 hours" = .ok (.float 3)
      ∧ parse_age "2 days" = .ok (.float 48)
      ∧ parse_age "45 minutes" = .ok (.float (3 / 4)) := by
  refine ⟨?_, ?_, ?_⟩
  · rw [c3_unit_normalization "3 hours" "3" "hours" 3 (by decide) (by decide)]
    decide
  · rw [c3_unit_normalization "2 days" "2" "days" 2 (by decide) (by decide)]
    decide
  · rw [c3_unit_normalization "45 minutes" "45" "minutes" 45 (by decide) (by decide)]
    decide

/-- **C5.** The claim says an item whose age-link lookup fails gets the
`"NA"` sentinel as age text, the age parser passes it through, and the
record is still produced.  Evaluating the code on a one-item page with no
`item?id=1` link: `soup.find(...)` returns `None`, `.string` raises
`AttributeError`, the `except IndexError` clause does not catch it, and
the whole page extraction aborts with no records.  Moreover even the
intended fallback would crash: `parse_age("NA")` raises `IndexError`. -/
theorem c5_age_lookup_crash_eval :
    parse_html pageNoAgeLink = .error .attributeError
      ∧ parse_age "NA" = .error .indexError := by
  constructor
  · decide
  · decide

/-- **C6.** Failure to locate an optional field's node never aborts an
item's extraction: with the required fields (age link, rank, title)
extractable, an item whose score-node lookup fails gets score `0` (via the
default text `"0 points"`), and an item whose metadata (subtext) row
lookup fails gets comment count `0` (a Python `float 0`, since
`parse_comments(0)` is `float(0)`), not the `"NA"` sentinel — and the
record is produced. -/
theorem c6_optional_field_defaults (doc : Doc) (entry_td : List Node) (x : ℕ) (tr : Node)
    (hscore : findById doc ("score_" ++ fstr (tr.attr "id")) = none)
    (htd : entry_td.get? x = none)
    (ageLink : Node)
    (hage : findByHref doc ("item?id=" ++ fstr (tr.attr "id")) = some ageLink)
    (av : PyVal) (hav : ageField ageLink.string = .ok av)
    (rv : PyVal) (hrv : rankField tr = .ok rv)
    (tv : PyVal) (htv : titleField tr = .ok tv) :
    extractItem doc entry_td x tr =
      .ok { comments := .float 0, rank := rv, score := .int 0,
            age := av, title_length := tv } := by
  have hsf : scoreField (some "0 points") = .ok (.int 0) := by decide
  have hcm : parse_comments (.int 0) = .float 0 := by decide
  simp only [extractItem, scoreText, commentsRaw, hage, hscore, htd, hsf, hcm,
    hrv, hav, htv]

/-- Witness for C6: a one-item page with the age link present but no score
span and no metadata row at all still yields a record with score `0` and
comment count `0`. -/
theorem c6_optional_field_defaults_witness :
    extractItem pageNoScore [] 0 (mkAthing 1 itNoScore) =
      .ok { comments := .float 0, rank := .float 1, score := .int 0,
            age := .float (1 / 15), title_length := .int 8 } := by
  exact c6_optional_field_defaults pageNoScore [] 0 (mkAthing 1 itNoScore)
    rfl rfl (ageAnchor 1 itNoScore) rfl
    (.float (1 / 15)) (by decide) (.float 1) (by decide) (.int 8) (by decide)

/-- **C10.** When the page has fewer metadata (subtext) rows than item
rows, the comment extraction of an item whose index is out of range does
not raise: the `IndexError` from `entry_td[x]` is caught, the comment
count defaults to `0`, and (the required fields and score extracting as
usual) the item's record is still produced. -/
theorem c10_subtext_out_of_range (doc : Doc) (entry_td : List Node) (x : ℕ) (tr : Node)
    (hlen : entry_td.length ≤ x)
    (ageLink : Node)
    (hage : findByHref doc ("item?id=" ++ fstr (tr.attr "id")) = some ageLink)
    (av : PyVal) (hav : ageField ageLink.string = .ok av)
    (rv : PyVal) (hrv : rankField tr = .ok rv)
    (sv : PyVal) (hsv : scoreField (scoreText doc (tr.attr "id")) = .ok sv)
    (tv : PyVal) (htv : titleField tr = .ok tv) :
    extractItem doc entry_td x tr =
      .ok { comments := .float 0, rank := rv, score := sv,
            age := av, title_length := tv } := by
  have htd : entry_td.get? x = none := List.get?_eq_none.2 hlen
  have hcm : parse_comments (.int 0) = .float 0 := by decide
  simp only [extractItem, commentsRaw, hage, htd, hcm, hrv, hsv, hav, htv]

/-- Witness for C10: the well-formed one-item page, extracting its item
with index 5 against the single-entry subtext list: index out of range,
comments default to `0`, record produced. -/
theorem c10_subtext_out_of_range_witness :
    extractItem onePage (findAllTagClass onePage "td" "subtext") 5 (mkAthing 1 itGood) =
      .ok { comments := .float 0, rank := .float 1, score := .int 5,
            age := .float 3, title_length := .int 11 } := by
  exact c10_subtext_out_of_range onePage (findAllTagClass onePage "td" "subtext") 5
    (mkAthing 1 itGood) (by decide) (ageAnchor 1 itGood) rfl
    (.float 3) (by decide) (.float 1) (by decide) (.int 5) (by decide)
    (.int 11) (by decide)

/-- **C8.** The claim (and the source's own docstring, lines 104–117) says
every record has exactly the five fields with `rank`, `score`,
`title_length` and (per the docstring) `comments` integers.  Evaluating
the code on a well-formed one-item page: `score` and `title_length` are
indeed `int`s, but `rank` is built by `float(...)` and `comments` by
`parse_comments` → `float(...)`, so both are Python floats, distinct from
the integers the claim names. -/
theorem c8_record_field_types_eval :
    parse_html onePage =
      .ok [{ comments := .float 12, rank := .float 1, score := .int 5,
             age := .float 3, title_length := .int 11 }]
      ∧ PyVal.float 1 ≠ PyVal.int 1 ∧ PyVal.float 12 ≠ PyVal.int 12 := by
  refine ⟨by decide, by decide, by decide⟩

/-- If the extraction loop returns a list at all, every iteration's
`extractItem` succeeded (no item is skipped over an error). -/
theorem extractFrom_ok_forall (doc : Doc) (entry_td : List Node) :
    ∀ (l : List Node) (x : ℕ) (out : List Article),
      extractFrom doc entry_td x l = .ok out →
      ∀ (k : ℕ) (tr : Node), l.get? k = some tr →
        (extractItem doc entry_td (x + k) tr).isOk = true := by
  intro l
  induction l with
  | nil => intro x out h k tr hk; cases hk
  | cons hd rest ih =>
    intro x out h k tr hk
    rw [extractFrom] at h
    cases hi : extractItem doc entry_td x hd with
    | error e => rw [hi] at h; cases h
    | ok a =>
      rw [hi] at h
      cases hr : extractFrom doc entry_td (x + 1) rest with
      | error e => rw [hr] at h; cases h
      | ok as =>
        cases k with
        | zero =>
          cases hk
          simpa using congrArg Except.isOk hi
        | succ k =>
          have hrec := ih (x + 1) as hr k tr (by simpa using hk)
          have hx : x + 1 + k = x + (k + 1) := by omega
          rwa [hx] at hrec

/-- **C7 (amended).** The claim says an item hitting a fatal condition on
a required field is dropped while the other items still produce records.
In the source, the uncaught exception propagates out of the extraction
loop: the amended statement is that a fatal item aborts extraction for the
whole page — `parse_html` returns the exception and produces no records,
not even for the well-formed items. -/
theorem c7_required_field_aborts_page (doc : Doc) (k : ℕ) (tr : Node)
    (htr : (findAllTagClass doc "tr" "athing").get? k = some tr)
    (hfail : (extractItem doc (findAllTagClass doc "td" "subtext") k tr).isOk = false) :
    ∃ e, parse_html doc = .error e := by
  cases h : parse_html doc with
  | error e => exact ⟨e, rfl⟩
  | ok out =>
    exfalso
    unfold parse_html at h
    have hall := extractFrom_ok_forall doc _ _ 0 out h k tr htr
    rw [Nat.zero_add, hfail] at hall
    cases hall

/-- Counterexample to **C7** as stated: on `pageNoTitle` the first item is
perfectly extractable on its own, and the second hits the fatal missing
title, yet `parse_html` yields an error and zero records — the claim's
"the other items on the page still produce records" fails. -/
theorem c7_counterexample :
    parse_html pageNoTitle = .error .attributeError
      ∧ extractItem pageNoTitle (findAllTagClass pageNoTitle "td" "subtext") 0
          (mkAthing 1 itGood) =
        .ok { comments := .float 12, rank := .float 1, score := .int 5,
              age := .float 3, title_length := .int 11 } := by
  exact ⟨by decide, by decide⟩

/-- Witness for the amended C7 at `pageNoTitle`, whose second item row
(index 1) fails its required-title lookup. -/
theorem c7_required_field_aborts_page_witness :
    ∃ e, parse_html pageNoTitle = .error e := by
  exact c7_required_field_aborts_page pageNoTitle 1 badAthing rfl (by decide)

/-- Attempts are counted from the current failure count; the loop makes at
most `3 - connection_attempts` further attempts. -/
theorem connectFrom_snd_le (f : ℕ → Bool) :
    ∀ a, a ≤ 3 → (connectFrom f a).2 ≤ 3 := by
  intro a ha
  interval_cases a <;>
    cases h0 : f 0 <;> cases h1 : f 1 <;> cases h2 : f 2 <;>
      simp [connectFrom, h0, h1, h2]

/-- When every attempt fails, the loop runs exactly its 3 attempts and
reports failure. -/
theorem connect_all_fail (f : ℕ → Bool) (hf : ∀ i, i < 3 → f i = false) :
    connect_to_base f = (false, 3) := by
  have h0 := hf 0 (by norm_num)
  have h1 := hf 1 (by norm_num)
  have h2 := hf 2 (by norm_num)
  unfold connect_to_base
  simp [connectFrom, h0, h1, h2]

/-- When every page's every attempt fails, each page contributes zero
records and the run still visits every page number up to the maximum. -/
theorem main_loop_all_fail (outcome : ℕ → ℕ → Bool) (docs : ℕ → Doc)
    (h : ∀ p i, i < 3 → outcome p i = false) :
    ∀ (n page max_pages : ℕ), max_pages + 1 - page = n →
      main_loop outcome docs page max_pages =
        .ok ((List.range' page n).map (fun p => (p, []))) := by
  intro n
  induction n with
  | zero =>
    intro page maxp hn
    have hgt : ¬page ≤ maxp := by omega
    rw [main_loop, if_neg hgt]
    rfl
  | succ n ih =>
    intro page maxp hn
    have hle : page ≤ maxp := by omega
    have hrp : run_process (outcome page) (docs page) = .ok [] := by
      unfold run_process
      rw [connect_all_fail _ (h page)]
      rfl
    rw [main_loop, if_pos hle, hrp, ih (page + 1) maxp (by omega)]
    rfl

/-- **C9.** For every page, the fetcher makes at most 3 connection
attempts and returns a boolean; when all 3 attempts fail it returns
failure after exactly 3 attempts, that page contributes zero records, and
the run proceeds through the remaining page numbers. -/
theorem c9_bounded_retry_and_page_skip :
    (∀ f : ℕ → Bool, (connect_to_base f).2 ≤ 3)
      ∧ (∀ f : ℕ → Bool, (∀ i, i < 3 → f i = false) →
          connect_to_base f = (false, 3))
      ∧ (∀ (outcome : ℕ → ℕ → Bool) (docs : ℕ → Doc) (page max_pages : ℕ),
          (∀ p i, i < 3 → outcome p i = false) →
          main_loop outcome docs page max_pages =
            .ok ((List.range' page (max_pages + 1 - page)).map (fun p => (p, [])))) := by
  refine ⟨fun f => connectFrom_snd_le f 0 (by norm_num), connect_all_fail, ?_⟩
  intro outcome docs page maxp h
  exact main_loop_all_fail outcome docs h (maxp + 1 - page) page maxp rfl

/-- Witness for C9: with every attempt failing, a 2-page run (pages 1–2)
completes with an empty record batch per page. -/
theorem c9_bounded_retry_and_page_skip_witness :
    main_loop (fun _ _ => false) (fun _ => []) 1 2 = .ok [(1, []), (2, [])] := by
  have h := c9_bounded_retry_and_page_skip.2.2 (fun _ _ => false) (fun _ => []) 1 2
    (fun _ _ _ => rfl)
  rw [h]
  rfl

/-! ### Facts about the generated page, towards C4 -/

/-- String append acts as list append on the character data. -/
theorem string_data_append (a b : String) : (a ++ b).data = a.data ++ b.data := rfl

/-- The characters of a repunit identifier. -/
theorem repId_data (n : ℕ) : (repId n).data = List.replicate n '1' := rfl

/-- Repunit identifiers are pairwise distinct. -/
theorem repId_inj {a b : ℕ} (h : repId a = repId b) : a = b := by
  have hd := congrArg (fun s => s.data.length) h
  simpa [repId_data] using hd

/-- A shared prefix cancels on the left of string equality. -/
theorem string_append_left_cancel {s a b : String} (h : s ++ a = s ++ b) : a = b := by
  have hd := congrArg String.data h
  rw [string_data_append, string_data_append] at hd
  exact String.ext (List.append_cancel_left hd)

/-- A repunit identifier never collides with a `score_`-prefixed id. -/
theorem repId_ne_score (m : ℕ) (s : String) : repId m ≠ "score_" ++ s := by
  intro h
  have hd := congrArg String.data h
  rw [repId_data, string_data_append] at hd
  cases m with
  | zero => exact absurd hd (by simp)
  | succ m =>
    rw [List.replicate_succ] at hd
    injection hd with h1 h2
    exact absurd h1 (by decide)

/-- Each repunit is smaller than the next. -/
theorem repunit_lt_succ (n : ℕ) : repunit n < repunit (n + 1) := by
  have h : repunit (n + 1) = 10 * repunit n + 1 := rfl
  rw [h]
  omega

/-- Repunits grow strictly with the number of ones. -/
theorem repunit_strictMono : StrictMono repunit :=
  strictMono_nat_of_lt_succ repunit_lt_succ

/-- Adding a one in front adds the next power of ten. -/
theorem repunit_succ_front (m : ℕ) : repunit (m + 1) = 10 ^ m + repunit m := by
  induction m with
  | zero => rfl
  | succ m ih =>
    calc repunit (m + 2) = 10 * repunit (m + 1) + 1 := rfl
      _ = 10 * (10 ^ m + repunit m) + 1 := by rw [ih]
      _ = 10 ^ (m + 1) + (10 * repunit m + 1) := by ring
      _ = 10 ^ (m + 1) + repunit (m + 1) := rfl

/-- Repunit digit strings are all decimal digits. -/
theorem all_digit_replicate_one (m : ℕ) :
    (List.replicate m '1').all Char.isDigit = true := by
  induction m with
  | zero => rfl
  | succ m ih => rw [List.replicate_succ, List.all_cons, ih]; rfl

/-- The accumulated decimal value of a block of ones. -/
theorem foldl_digitStep_replicate_one (m : ℕ) :
    ∀ a, (List.replicate m '1').foldl digitStep a = a * 10 ^ m + repunit m := by
  induction m with
  | zero => intro a; simp [repunit]
  | succ m ih =>
    intro a
    have hd : '1'.toNat - 48 = 1 := by decide
    have hc : digitStep a '1' = a * 10 + 1 := by
      show a * 10 + ('1'.toNat - 48) = a * 10 + 1
      rw [hd]
    rw [List.replicate_succ, List.foldl_cons, hc, ih, repunit_succ_front]
    ring

/-- The decimal value of a repunit digit string. -/
theorem digitsVal_replicate_one (m : ℕ) :
    digitsVal (List.replicate m '1') = repunit m := by
  rw [digitsVal, foldl_digitStep_replicate_one]
  ring

/-- Splitting `"1…1."` on the decimal point. -/
theorem splitOnChar_dot_ones (m : ℕ) :
    splitOnChar '.' (List.replicate m '1' ++ ['.']) = [List.replicate m '1', []] := by
  induction m with
  | zero => rfl
  | succ m ih =>
    rw [List.replicate_succ, List.cons_append, splitOnChar, if_neg (by decide), ih]

/-- `float("<rank>.")` on a generated rank marker gives the repunit. -/
theorem pyFloat_repId_dot (m : ℕ) :
    pyFloat (repId (m + 1) ++ ".") = some ((repunit (m + 1) : ℕ) : ℚ) := by
  have hd : (repId (m + 1) ++ ".").data = '1' :: (List.replicate m '1' ++ ['.']) := by
    rw [string_data_append, repId_data, List.replicate_succ]
    rfl
  rw [pyFloat, hd, pyFloatChars]
  have hs : stripSign ('1' :: (List.replicate m '1' ++ ['.'])) =
      (1, '1' :: (List.replicate m '1' ++ ['.'])) := by
    rw [stripSign, if_neg (by decide), if_neg (by decide)]
  rw [hs]
  have hrep : ('1' :: (List.replicate m '1' ++ ['.'])) =
      List.replicate (m + 1) '1' ++ ['.'] := by
    rw [List.replicate_succ, List.cons_append]
  rw [hrep]
  simp only [splitOnChar_dot_ones]
  rw [if_pos ⟨Or.inl (by simp), all_digit_replicate_one (m + 1), rfl⟩]
  simp [digitsVal_replicate_one]
  norm_num [digitsVal]

/-- A false Boolean predicate value, in the form `find?` lemmas expect. -/
theorem not_true_of_eq_false {b : Bool} (h : b = false) : ¬b = true := by
  simp [h]

/-- `nodeList` preserves descendant computation. -/
theorem descendantsL_nodeList (l : List Node) :
    NodeList.descendantsL (nodeList l) = descendantsList l := by
  induction l with
  | nil => rfl
  | cons n ns ih => simp [nodeList, NodeList.descendantsL, descendantsList, ih]

/-- The nodes of a generated item row, in document order. -/
theorem descendants_mkAthing (p : ℕ) (it : ItemSpec) :
    (mkAthing p it).descendants =
      [mkAthing p it,
       .elem "td" [] (nodeList [rankSpan p]), rankSpan p, .text (repId p ++ "."),
       .elem "td" [] (nodeList [storyAnchor it]), storyAnchor it, .text it.title] := rfl

/-- The nodes of a generated metadata row, in document order. -/
theorem descendants_mkSubtextTr (p : ℕ) (it : ItemSpec) :
    (mkSubtextTr p it).descendants =
      [mkSubtextTr p it, mkSubtextTd p it,
       scoreSpan p it, .text it.score,
       ageAnchor p it, .text it.age,
       commentAnchor p it, .text it.comment] := rfl

/-- The item row is the only `tr.athing` in its own block. -/
theorem filter_athing_blockA (p : ℕ) (it : ItemSpec) :
    ((mkAthing p it).descendants).filter
      (fun n => n.isElem "tr" && n.hasClass "athing") = [mkAthing p it] := rfl

/-- The metadata row block contains no `tr.athing`. -/
theorem filter_athing_blockB (p : ℕ) (it : ItemSpec) :
    ((mkSubtextTr p it).descendants).filter
      (fun n => n.isElem "tr" && n.hasClass "athing") = [] := rfl

/-- The item row block contains no `td.subtext`. -/
theorem filter_subtext_blockA (p : ℕ) (it : ItemSpec) :
    ((mkAthing p it).descendants).filter
      (fun n => n.isElem "td" && n.hasClass "subtext") = [] := rfl

/-- The metadata cell is the only `td.subtext` in its own block. -/
theorem filter_subtext_blockB (p : ℕ) (it : ItemSpec) :
    ((mkSubtextTr p it).descendants).filter
      (fun n => n.isElem "td" && n.hasClass "subtext") = [mkSubtextTd p it] := rfl

/-- No node of an item row block carries an `href` attribute. -/
theorem find_href_blockA (p : ℕ) (it : ItemSpec) (v : String) :
    ((mkAthing p it).descendants).find?
      (fun n => n.attr "href" == some v) = none := rfl

/-- In its metadata row, the first node with the item's `item?id=` href is
the age link (the comments link carries the same href but comes later). -/
theorem find_href_blockB_hit (p : ℕ) (it : ItemSpec) :
    ((mkSubtextTr p it).descendants).find?
      (fun n => n.attr "href" == some ("item?id=" ++ repId p)) =
      some (ageAnchor p it) := by
  rw [descendants_mkSubtextTr]
  rw [List.find?_cons_of_neg _ (not_true_of_eq_false rfl)]
  rw [List.find?_cons_of_neg _ (not_true_of_eq_false rfl)]
  rw [List.find?_cons_of_neg _ (not_true_of_eq_false rfl)]
  rw [List.find?_cons_of_neg _ (not_true_of_eq_false rfl)]
  exact List.find?_cons_of_pos _ (beq_self_eq_true _)

/-- A metadata row holds no node with a different item's href. -/
theorem find_href_blockB_miss (p : ℕ) (it : ItemSpec) (v : String)
    (hv : v ≠ "item?id=" ++ repId p) :
    ((mkSubtextTr p it).descendants).find?
      (fun n => n.attr "href" == some v) = none := by
  have hne : (some ("item?id=" ++ repId p) == some v) = false :=
    beq_eq_false_iff_ne.2 (fun h => hv (Option.some.inj h).symm)
  rw [descendants_mkSubtextTr, List.find?_eq_none]
  intro x hx
  fin_cases hx <;>
    first
      | exact not_true_of_eq_false rfl
      | exact not_true_of_eq_false hne

/-- An item row holds no node with an `id` other than the item's own. -/
theorem find_id_blockA (p : ℕ) (it : ItemSpec) (v : String)
    (hv : v ≠ repId p) :
    ((mkAthing p it).descendants).find?
      (fun n => n.attr "id" == some v) = none := by
  have hne : (some (repId p) == some v) = false :=
    beq_eq_false_iff_ne.2 (fun h => hv (Option.some.inj h).symm)
  rw [descendants_mkAthing, List.find?_eq_none]
  intro x hx
  fin_cases hx <;>
    first
      | exact not_true_of_eq_false rfl
      | exact not_true_of_eq_false hne

/-- In its metadata row, the node with the item's `score_` id is the score
span. -/
theorem find_id_blockB_hit (p : ℕ) (it : ItemSpec) :
    ((mkSubtextTr p it).descendants).find?
      (fun n => n.attr "id" == some ("score_" ++ repId p)) =
      some (scoreSpan p it) := by
  rw [descendants_mkSubtextTr]
  rw [List.find?_cons_of_neg _ (not_true_of_eq_false rfl)]
  rw [List.find?_cons_of_neg _ (not_true_of_eq_false rfl)]
  exact List.find?_cons_of_pos _ (beq_self_eq_true _)

/-- A metadata row holds no node with a different item's `score_` id. -/
theorem find_id_blockB_miss (p : ℕ) (it : ItemSpec) (v : String)
    (hv : v ≠ "score_" ++ repId p) :
    ((mkSubtextTr p it).descendants).find?
      (fun n => n.attr "id" == some v) = none := by
  have hne : (some ("score_" ++ repId p) == some v) = false :=
    beq_eq_false_iff_ne.2 (fun h => hv (Option.some.inj h).symm)
  rw [descendants_mkSubtextTr, List.find?_eq_none]
  intro x hx
  fin_cases hx <;>
    first
      | exact not_true_of_eq_false rfl
      | exact not_true_of_eq_false hne

/-- The anchors of a metadata cell: age link first, comments link last. -/
theorem findAllTag_a_mkSubtextTd (p : ℕ) (it : ItemSpec) :
    (mkSubtextTd p it).findAllTag "a" = [ageAnchor p it, commentAnchor p it] := rfl

/-- The generated rows split blockwise for traversal. -/
theorem descendantsList_mkRows_cons (p : ℕ) (it : ItemSpec) (rest : List ItemSpec) :
    descendantsList (mkRows p (it :: rest)) =
      (mkAthing p it).descendants ++
        ((mkSubtextTr p it).descendants ++ descendantsList (mkRows (p + 1) rest)) := rfl

/-- The `tr.athing` rows of the generated rows, in order. -/
theorem filter_athing_mkRows : ∀ (items : List ItemSpec) (p : ℕ),
    (descendantsList (mkRows p items)).filter
      (fun n => n.isElem "tr" && n.hasClass "athing") = athings p items := by
  intro items
  induction items with
  | nil => intro p; rfl
  | cons it rest ih =>
    intro p
    rw [descendantsList_mkRows_cons, List.filter_append, List.filter_append,
      filter_athing_blockA, filter_athing_blockB, ih]
    rfl

/-- The `td.subtext` cells of the generated rows, in order. -/
theorem filter_subtext_mkRows : ∀ (items : List ItemSpec) (p : ℕ),
    (descendantsList (mkRows p items)).filter
      (fun n => n.isElem "td" && n.hasClass "subtext") = subtextTds p items := by
  intro items
  induction items with
  | nil => intro p; rfl
  | cons it rest ih =>
    intro p
    rw [descendantsList_mkRows_cons, List.filter_append, List.filter_append,
      filter_subtext_blockA, filter_subtext_blockB, ih]
    rfl

/-- In the generated rows, the first node carrying the `k`-th item's
`item?id=` href is that item's age link. -/
theorem find_href_mkRows : ∀ (items : List ItemSpec) (p k : ℕ) (hk : k < items.length),
    (descendantsList (mkRows p items)).find?
      (fun n => n.attr "href" == some ("item?id=" ++ repId (p + k))) =
      some (ageAnchor (p + k) (items.get ⟨k, hk⟩)) := by
  intro items
  induction items with
  | nil => intro p k hk; exact absurd hk (by simp)
  | cons it rest ih =>
    intro p k hk
    rw [descendantsList_mkRows_cons, List.find?_append, List.find?_append,
      find_href_blockA]
    cases k with
    | zero =>
      rw [Nat.add_zero, find_href_blockB_hit]
      rfl
    | succ k =>
      have hne : ("item?id=" ++ repId (p + (k + 1)) : String) ≠ "item?id=" ++ repId p := by
        intro h
        have h2 := repId_inj (string_append_left_cancel h)
        omega
      rw [find_href_blockB_miss _ _ _ hne]
      have hk' : k < rest.length := by simpa using Nat.lt_of_succ_lt_succ hk
      rw [show p + (k + 1) = p + 1 + k from by omega]
      rw [ih (p + 1) k hk']
      rfl

/-- In the generated rows, the node carrying the `k`-th item's `score_` id
is that item's score span. -/
theorem find_id_mkRows : ∀ (items : List ItemSpec) (p k : ℕ) (hk : k < items.length),
    (descendantsList (mkRows p items)).find?
      (fun n => n.attr "id" == some ("score_" ++ repId (p + k))) =
      some (scoreSpan (p + k) (items.get ⟨k, hk⟩)) := by
  intro items
  induction items with
  | nil => intro p k hk; exact absurd hk (by simp)
  | cons it rest ih =>
    intro p k hk
    rw [descendantsList_mkRows_cons, List.find?_append, List.find?_append]
    have hvA : ("score_" ++ repId (p + k) : String) ≠ repId p :=
      fun h => repId_ne_score p (repId (p + k)) h.symm
    rw [find_id_blockA _ _ _ hvA]
    cases k with
    | zero =>
      rw [Nat.add_zero, find_id_blockB_hit]
      rfl
    | succ k =>
      have hne : ("score_" ++ repId (p + (k + 1)) : String) ≠ "score_" ++ repId p := by
        intro h
        have h2 := repId_inj (string_append_left_cancel h)
        omega
      rw [find_id_blockB_miss _ _ _ hne]
      have hk' : k < rest.length := by simpa using Nat.lt_of_succ_lt_succ hk
      rw [show p + (k + 1) = p + 1 + k from by omega]
      rw [ih (p + 1) k hk']
      rfl

/-- The athing list has one entry per item. -/
theorem athings_length : ∀ (items : List ItemSpec) (p : ℕ),
    (athings p items).length = items.length := by
  intro items
  induction items with
  | nil => intro p; rfl
  | cons it rest ih => intro p; simp [athings, ih]

/-- The `k`-th athing row belongs to the `k`-th item. -/
theorem athings_get? : ∀ (items : List ItemSpec) (p k : ℕ) (hk : k < items.length),
    (athings p items).get? k = some (mkAthing (p + k) (items.get ⟨k, hk⟩)) := by
  intro items
  induction items with
  | nil => intro p k hk; exact absurd hk (by simp)
  | cons it rest ih =>
    intro p k hk
    cases k with
    | zero => rw [Nat.add_zero]; rfl
    | succ k =>
      have hk' : k < rest.length := by simpa using Nat.lt_of_succ_lt_succ hk
      rw [show p + (k + 1) = p + 1 + k from by omega]
      rw [show (athings p (it :: rest)).get? (k + 1) = (athings (p + 1) rest).get? k from rfl]
      rw [ih (p + 1) k hk']
      rfl

/-- The `k`-th subtext cell belongs to the `k`-th item. -/
theorem subtextTds_get? : ∀ (items : List ItemSpec) (p k : ℕ) (hk : k < items.length),
    (subtextTds p items).get? k = some (mkSubtextTd (p + k) (items.get ⟨k, hk⟩)) := by
  intro items
  induction items with
  | nil => intro p k hk; exact absurd hk (by simp)
  | cons it rest ih =>
    intro p k hk
    cases k with
    | zero => rw [Nat.add_zero]; rfl
    | succ k =>
      have hk' : k < rest.length := by simpa using Nat.lt_of_succ_lt_succ hk
      rw [show p + (k + 1) = p + 1 + k from by omega]
      rw [show (subtextTds p (it :: rest)).get? (k + 1) = (subtextTds (p + 1) rest).get? k from rfl]
      rw [ih (p + 1) k hk']
      rfl

/-- The full traversal of a generated page: the table wrapper, then the
rows blockwise. -/
theorem descendantsList_mkPage (items : List ItemSpec) :
    descendantsList (mkPage items) =
      Node.elem "table" [] (nodeList (mkRows 1 items)) :: descendantsList (mkRows 1 items) := by
  show (Node.elem "table" [] (nodeList (mkRows 1 items))).descendants ++ descendantsList [] = _
  rw [show (Node.elem "table" [] (nodeList (mkRows 1 items))).descendants
      = Node.elem "table" [] (nodeList (mkRows 1 items))
          :: NodeList.descendantsL (nodeList (mkRows 1 items)) from rfl]
  rw [descendantsL_nodeList]
  simp [descendantsList]

/-- `entry_tr` on a generated page: the athing rows in order. -/
theorem entry_tr_mkPage (items : List ItemSpec) :
    findAllTagClass (mkPage items) "tr" "athing" = athings 1 items := by
  unfold findAllTagClass
  rw [descendantsList_mkPage, List.filter_cons_of_neg (not_true_of_eq_false rfl)]
  exact filter_athing_mkRows items 1

/-- `entry_td` on a generated page: the subtext cells in order. -/
theorem entry_td_mkPage (items : List ItemSpec) :
    findAllTagClass (mkPage items) "td" "subtext" = subtextTds 1 items := by
  unfold findAllTagClass
  rw [descendantsList_mkPage, List.filter_cons_of_neg (not_true_of_eq_false rfl)]
  exact filter_subtext_mkRows items 1

/-- The age-link lookup on a generated page finds the `k`-th item's link. -/
theorem findByHref_mkPage (items : List ItemSpec) (k : ℕ) (hk : k < items.length) :
    findByHref (mkPage items) ("item?id=" ++ repId (1 + k)) =
      some (ageAnchor (1 + k) (items.get ⟨k, hk⟩)) := by
  unfold findByHref
  rw [descendantsList_mkPage, List.find?_cons_of_neg _ (not_true_of_eq_false rfl)]
  exact find_href_mkRows items 1 k hk

/-- The score lookup on a generated page finds the `k`-th item's span. -/
theorem findById_mkPage (items : List ItemSpec) (k : ℕ) (hk : k < items.length) :
    findById (mkPage items) ("score_" ++ repId (1 + k)) =
      some (scoreSpan (1 + k) (items.get ⟨k, hk⟩)) := by
  unfold findById
  rw [descendantsList_mkPage, List.find?_cons_of_neg _ (not_true_of_eq_false rfl)]
  exact find_id_mkRows items 1 k hk

/-- Extracting the `k`-th item of a generated page succeeds and yields its
expected record, provided the item's score and age texts convert. -/
theorem extractItem_mkPage (items : List ItemSpec) (k : ℕ) (hk : k < items.length)
    (hsc : (pyInt ((pySplitChar ' ' (items.get ⟨k, hk⟩).score).headD "")).isSome = true)
    (hag : (parse_age (items.get ⟨k, hk⟩).age).isOk = true) :
    extractItem (mkPage items) (subtextTds 1 items) k
        (mkAthing (k + 1) (items.get ⟨k, hk⟩)) =
      .ok (expRecord (k + 1) (items.get ⟨k, hk⟩)) := by
  have hadd : 1 + k = k + 1 := by omega
  have hbref : findByHref (mkPage items)
      ("item?id=" ++ fstr ((mkAthing (k + 1) (items.get ⟨k, hk⟩)).attr "id")) =
      some (ageAnchor (k + 1) (items.get ⟨k, hk⟩)) := by
    have h1 := findByHref_mkPage items k hk
    rw [hadd] at h1
    exact h1
  have hbid : findById (mkPage items)
      ("score_" ++ fstr ((mkAthing (k + 1) (items.get ⟨k, hk⟩)).attr "id")) =
      some (scoreSpan (k + 1) (items.get ⟨k, hk⟩)) := by
    have h1 := findById_mkPage items k hk
    rw [hadd] at h1
    exact h1
  have htd : (subtextTds 1 items).get? k =
      some (mkSubtextTd (k + 1) (items.get ⟨k, hk⟩)) := by
    have h1 := subtextTds_get? items 1 k hk
    rw [hadd] at h1
    exact h1
  have hrank : rankField (mkAthing (k + 1) (items.get ⟨k, hk⟩)) =
      .ok (.float ((repunit (k + 1) : ℕ) : ℚ)) := by
    rw [show rankField (mkAthing (k + 1) (items.get ⟨k, hk⟩)) =
        (match pyFloat (repId (k + 1) ++ ".") with
         | none => Except.error PyErr.valueError
         | some q => Except.ok (PyVal.float q)) from rfl]
    rw [pyFloat_repId_dot k]
  obtain ⟨n, hn⟩ := Option.isSome_iff_exists.1 hsc
  have hscoreF : scoreField (some (items.get ⟨k, hk⟩).score) = .ok (.int n) := by
    rw [show scoreField (some (items.get ⟨k, hk⟩).score) =
        (match pyInt ((pySplitChar ' ' (items.get ⟨k, hk⟩).score).headD "") with
         | none => Except.error PyErr.valueError
         | some m => Except.ok (PyVal.int m)) from rfl]
    rw [hn]
  cases hv : parse_age (items.get ⟨k, hk⟩).age with
  | error e => rw [hv] at hag; cases hag
  | ok v =>
    have hageF : ageField (some (items.get ⟨k, hk⟩).age) = .ok v := hv
    have htitle : titleField (mkAthing (k + 1) (items.get ⟨k, hk⟩)) =
        .ok (.int ((items.get ⟨k, hk⟩).title.length : ℤ)) := rfl
    simp only [extractItem, scoreText, commentsRaw, hbref, hbid, htd, hrank,
      hscoreF, hageF, htitle,
      show (ageAnchor (k + 1) (items.get ⟨k, hk⟩)).string =
        some (items.get ⟨k, hk⟩).age from rfl,
      show (scoreSpan (k + 1) (items.get ⟨k, hk⟩)).string =
        some (items.get ⟨k, hk⟩).score from rfl,
      findAllTag_a_mkSubtextTd,
      show ([ageAnchor (k + 1) (items.get ⟨k, hk⟩),
             commentAnchor (k + 1) (items.get ⟨k, hk⟩)] : List Node).getLast? =
        some (commentAnchor (k + 1) (items.get ⟨k, hk⟩)) from rfl,
      show (commentAnchor (k + 1) (items.get ⟨k, hk⟩)).string =
        some (items.get ⟨k, hk⟩).comment from rfl]
    unfold expRecord
    rw [hn, hv]
    rfl

/-- The extraction loop maps list positions to records when every
iteration succeeds. -/
theorem extractFrom_pointwise (doc : Doc) (entry_td : List Node) :
    ∀ (l : List Node) (x : ℕ) (f : ℕ → Article),
      (∀ (k : ℕ) (tr : Node), l.get? k = some tr →
        extractItem doc entry_td (x + k) tr = .ok (f (x + k))) →
      extractFrom doc entry_td x l = .ok ((List.range' x l.length).map f) := by
  intro l
  induction l with
  | nil => intro x f h; rfl
  | cons hd rest ih =>
    intro x f h
    have h0 : extractItem doc entry_td x hd = .ok (f x) := by
      have h1 := h 0 hd rfl
      simpa using h1
    have hshift : ∀ (k : ℕ) (tr : Node), rest.get? k = some tr →
        extractItem doc entry_td (x + 1 + k) tr = .ok (f (x + 1 + k)) := by
      intro k tr hk
      have h1 := h (k + 1) tr (by simpa using hk)
      rwa [show x + (k + 1) = x + 1 + k from by omega] at h1
    rw [extractFrom, h0, ih (x + 1) f hshift]
    rfl

/-- **C4.** The Record Extractor on a generated page with `N` well-formed
item nodes (every score and age text converts) produces exactly `N`
records, in document order — the `k`-th record is built from the `k`-th
item — and their ranks (the repunit rank markers `1, 11, 111, …`)
strictly increase by node order. -/
theorem c4_extractor_count_order_ranks (items : List ItemSpec)
    (hsc : ∀ it ∈ items, (pyInt ((pySplitChar ' ' it.score).headD "")).isSome = true)
    (hag : ∀ it ∈ items, (parse_age it.age).isOk = true) :
    ∃ recs, parse_html (mkPage items) = .ok recs
      ∧ recs.length = items.length
      ∧ (∀ (k : ℕ) (hk : k < items.length),
          recs.get? k = some (expRecord (k + 1) (items.get ⟨k, hk⟩)))
      ∧ (∀ i j ri rj, i < j → recs.get? i = some ri → recs.get? j = some rj →
          ∃ qi qj : ℚ, ri.rank = .float qi ∧ rj.rank = .float qj ∧ qi < qj) := by
  have hget : ∀ (k : ℕ) (hk : k < items.length),
      ((List.range' 0 items.length).map
        (fun j => expRecord (j + 1) (items.getD j ⟨"", "", "", ""⟩))).get? k =
        some (expRecord (k + 1) (items.get ⟨k, hk⟩)) := by
    intro k hk
    rw [List.get?_map, ← List.range_eq_range', List.get?_range hk]
    have hd : items.getD k ⟨"", "", "", ""⟩ = items.get ⟨k, hk⟩ := by
      rw [List.getD, List.get?_eq_get hk]
      rfl
    rw [Option.map_some']
    rw [hd]
  refine ⟨(List.range' 0 items.length).map
      (fun j => expRecord (j + 1) (items.getD j ⟨"", "", "", ""⟩)), ?_, ?_, hget, ?_⟩
  · unfold parse_html
    rw [entry_tr_mkPage, entry_td_mkPage, ← athings_length items 1]
    apply extractFrom_pointwise
    intro k tr hk
    have hklt : k < items.length := by
      have h1 := (List.get?_eq_some.1 hk).1
      rwa [athings_length] at h1
    rw [athings_get? items 1 k hklt] at hk
    have htr : tr = mkAthing (1 + k) (items.get ⟨k, hklt⟩) := (Option.some.inj hk).symm
    rw [Nat.zero_add, htr, show (1 : ℕ) + k = k + 1 from by omega]
    have hfk : items.getD k ⟨"", "", "", ""⟩ = items.get ⟨k, hklt⟩ := by
      rw [List.getD, List.get?_eq_get hklt]
      rfl
    rw [hfk]
    exact extractItem_mkPage items k hklt
      (hsc _ (items.get_mem k hklt)) (hag _ (items.get_mem k hklt))
  · simp
  · intro i j ri rj hij hri hrj
    have hjlt : j < items.length := by
      have h1 := (List.get?_eq_some.1 hrj).1
      simpa using h1
    have hilt : i < items.length := by omega
    rw [hget i hilt] at hri
    rw [hget j hjlt] at hrj
    refine ⟨(repunit (i + 1) : ℕ), (repunit (j + 1) : ℕ), ?_, ?_, ?_⟩
    · rw [← Option.some.inj hri]
      rfl
    · rw [← Option.some.inj hrj]
      rfl
    · exact_mod_cast repunit_strictMono (by omega : i + 1 < j + 1)

/-- Witness for C4: the two-item generated page yields exactly its two
records in order, rank 1 then rank 11. -/
theorem c4_extractor_count_order_ranks_witness :
    ∃ recs, parse_html (mkPage c4items) = .ok recs ∧ recs.length = 2
      ∧ recs.get? 0 = some (expRecord 1 c4item0)
      ∧ recs.get? 1 = some (expRecord 2 c4item1) := by
  obtain ⟨recs, h1, h2, h3, _⟩ :=
    c4_extractor_count_order_ranks c4items (by decide) (by decide)
  refine ⟨recs, h1, by rw [h2]; rfl, ?_, ?_⟩
  · have h4 := h3 0 (by norm_num [c4items])
    simpa [c4items] using h4
  · have h4 := h3 1 (by norm_num [c4items])
    simpa [c4items] using h4

end HNScraper
